import Mathlib

/-!
Verification development for the ecowitt_iot integration's device
synchronization core: the polling coordinator (`coordinator.py`), the
switch/sensor/binary-sensor entity layer (`switch.py`, `sensor.py`,
`binary_sensor.py`) and the config-flow response validation
(`config_flow.py`).  The Python code is shallowly embedded: the mutable
coordinator caches become explicit association lists, HTTP traffic becomes
an explicit response argument, wall-clock time becomes an explicit `now`
argument, and raised exceptions become `Except`/result values.  The
stdlib `json.loads` is modelled by a small executable JSON parser over the
same value grammar.
-/

/-- Characters Python's `str.strip(" %\n\r")` removes from both ends, as used
by `coordinator._fetch_device_data`, `coordinator.set_device_state` and
`config_flow.validate_input`. -/
def stripCharsList : List Char := [' ', '%', '\n', '\r']

/-- Python `s.strip(chars)`: drop every leading and trailing character that is
a member of `chars` (not merely one occurrence). -/
def pyStrip (chars : List Char) (s : String) : String :=
  String.mk (((s.data.dropWhile (chars.contains ·)).reverse.dropWhile
    (chars.contains ·)).reverse)

/-- Whitespace recognised by the embedding (space, tab, newline, carriage
return); used both by the JSON lexer and by the spec-side trim rule. -/
def isWsChar (c : Char) : Bool :=
  c = ' ' || c = '\t' || c = '\n' || c = '\r'

/-- Drop leading whitespace. -/
def skipWs : List Char → List Char
  | [] => []
  | c :: cs => match isWsChar c with
    | true => skipWs cs
    | false => c :: cs

/-- Drop whitespace from both ends. -/
def trimWsBoth (l : List Char) : List Char :=
  ((l.dropWhile isWsChar).reverse.dropWhile isWsChar).reverse

/-- Remove exactly one trailing percent character, when present. -/
def dropOneTrailingPercent (l : List Char) : List Char :=
  match l.reverse with
  | '%' :: rest => rest.reverse
  | _ => l

/-- The normalization trim as the specification words it: strip
leading/trailing whitespace and a single trailing percent character (read
charitably, re-trimming whitespace after the percent is removed so the
spec's own example cleans fully). -/
def specClean (s : String) : String :=
  String.mk (trimWsBoth (dropOneTrailingPercent (trimWsBoth s.data)))

/-- Python `text.startswith("<")`. -/
def startsWithLt (s : String) : Bool :=
  match s.data with
  | c :: _ => c = '<'
  | [] => false

/-- Association-list lookup, the embedding of Python dict subscripting /
`in` tests on the coordinator's string-keyed dictionaries. -/
def lookupD {α : Type} : List (String × α) → String → Option α
  | [], _ => none
  | (k, v) :: rest, key => if k = key then some v else lookupD rest key

/-- Association-list update, the embedding of Python `d[key] = val`:
replace in place when the key exists, append otherwise. -/
def insertD {α : Type} : List (String × α) → String → α → List (String × α)
  | [], key, val => [(key, val)]
  | (k, v) :: rest, key, val =>
    if k = key then (k, val) :: rest else (k, v) :: insertD rest key val

/-- JSON values as produced by `json.loads`: numbers keep their integer part
and fractional digit list so that Python truthiness stays representable. -/
inductive JsonValue : Type
  | null : JsonValue
  | bool (b : Bool) : JsonValue
  | num (n : Int) (frac : List Char) : JsonValue
  | str (s : String) : JsonValue
  | arr (xs : List JsonValue) : JsonValue
  | obj (fields : List (String × JsonValue)) : JsonValue

/-- Python truthiness (`bool(x)` / `if x:`) on JSON values. -/
def isTruthy : JsonValue → Bool
  | .null => false
  | .bool b => b
  | .num n frac => !(n == 0 && frac.all (· == '0'))
  | .str s => !(s == "")
  | .arr xs => !xs.isEmpty
  | .obj fields => !fields.isEmpty

/-- Digit list to numeric value. -/
def digitsVal (l : List Char) : Nat :=
  l.foldl (fun acc c => acc * 10 + (c.toNat - '0'.toNat)) 0

/-- Python `int(s)` on a string: strip whitespace, optional sign, then a
nonempty run of decimal digits (digit-group underscores are not modelled). -/
def pyInt (s : String) : Option Int :=
  let core : List Char → Option Int := fun ds =>
    if ds.isEmpty then none
    else if ds.all (·.isDigit) then some (Int.ofNat (digitsVal ds))
    else none
  match trimWsBoth s.data with
  | '-' :: ds => (core ds).map (fun n => -n)
  | '+' :: ds => core ds
  | ds => core ds

/-- Body of a JSON string after the opening quote; escape sequences are not
modelled (none of the device payloads uses them). -/
def parseStringBody : List Char → Option (String × List Char)
  | [] => none
  | c :: cs =>
    if c = '"' then some ("", cs)
    else if c = '\\' then none
    else (parseStringBody cs).map (fun p => (String.mk (c :: p.1.data), p.2))

/-- A JSON number: optional minus, digits without a superfluous leading zero,
optional fraction (exponents are not modelled). -/
def parseNumber (l : List Char) : Option (JsonValue × List Char) :=
  let signed : Bool × List Char :=
    match l with
    | '-' :: rest => (true, rest)
    | _ => (false, l)
  let intDigits := signed.2.takeWhile (·.isDigit)
  let rest1 := signed.2.dropWhile (·.isDigit)
  if intDigits.isEmpty then none
  else if intDigits.length > 1 && intDigits.headD '0' = '0' then none
  else
    let n : Int := if signed.1 then -(Int.ofNat (digitsVal intDigits))
                   else Int.ofNat (digitsVal intDigits)
    match rest1 with
    | '.' :: r2 =>
      let fracDigits := r2.takeWhile (·.isDigit)
      if fracDigits.isEmpty then none
      else some (.num n fracDigits, r2.dropWhile (·.isDigit))
    | _ => some (.num n [], rest1)

/-- Which grammar production `parseCore` is reading. -/
inductive ParseKind : Type
  | value : ParseKind
  | elems : ParseKind
  | members : ParseKind

/-- Intermediate parse results for the three productions. -/
inductive PRes : Type
  | v (val : JsonValue) : PRes
  | vs (vals : List JsonValue) : PRes
  | ms (fields : List (String × JsonValue)) : PRes

/-- Recursive-descent JSON reader, fuelled so the recursion is structural and
the kernel can evaluate it on concrete input.  `.elems` reads the elements of
a non-empty array up to the closing bracket, `.members` the fields of a
non-empty object up to the closing brace. -/
def parseCore : Nat → ParseKind → List Char → Option (PRes × List Char)
  | 0, _, _ => none
  | fuel + 1, .value, input =>
    match skipWs input with
    | [] => none
    | c :: cs =>
      if c = 'n' then
        match cs with
        | 'u' :: 'l' :: 'l' :: rest => some (.v .null, rest)
        | _ => none
      else if c = 't' then
        match cs with
        | 'r' :: 'u' :: 'e' :: rest => some (.v (.bool true), rest)
        | _ => none
      else if c = 'f' then
        match cs with
        | 'a' :: 'l' :: 's' :: 'e' :: rest => some (.v (.bool false), rest)
        | _ => none
      else if c = '"' then
        (parseStringBody cs).map (fun p => (.v (.str p.1), p.2))
      else if c = '[' then
        match skipWs cs with
        | ']' :: rest => some (.v (.arr []), rest)
        | rest =>
          match parseCore fuel .elems rest with
          | some (.vs xs, rest2) => some (.v (.arr xs), rest2)
          | _ => none
      else if c = '\x7b' then
        match skipWs cs with
        | '\x7d' :: rest => some (.v (.obj []), rest)
        | rest =>
          match parseCore fuel .members rest with
          | some (.ms fs, rest2) => some (.v (.obj fs), rest2)
          | _ => none
      else if c = '-' || c.isDigit then
        (parseNumber (c :: cs)).map (fun p => (.v p.1, p.2))
      else none
  | fuel + 1, .elems, input =>
    match parseCore fuel .value input with
    | some (.v x, rest) =>
      match skipWs rest with
      | ',' :: r2 =>
        match parseCore fuel .elems r2 with
        | some (.vs xs, r3) => some (.vs (x :: xs), r3)
        | _ => none
      | ']' :: r2 => some (.vs [x], r2)
      | _ => none
    | _ => none
  | fuel + 1, .members, input =>
    match skipWs input with
    | '"' :: cs =>
      match parseStringBody cs with
      | some (key, rest) =>
        match skipWs rest with
        | ':' :: r2 =>
          match parseCore fuel .value r2 with
          | some (.v x, r3) =>
            match skipWs r3 with
            | ',' :: r4 =>
              match parseCore fuel .members r4 with
              | some (.ms fs, r5) => some (.ms ((key, x) :: fs), r5)
              | _ => none
            | '\x7d' :: r4 => some (.ms [(key, x)], r4)
            | _ => none
          | _ => none
        | _ => none
      | none => none
    | _ => none

/-- Model of Python `json.loads`: one complete JSON document, trailing
whitespace only. -/
def jsonParse (s : String) : Option JsonValue :=
  match parseCore (s.data.length * 2 + 8) .value s.data with
  | some (.v x, rest) => if skipWs rest = [] then some x else none
  | _ => none

example : jsonParse "\x7b\"x\": 1\x7d" = some (.obj [("x", .num 1 [])]) := rfl
example : jsonParse "<html>error</html>" = none := rfl
example : jsonParse "not json\x7b" = none := rfl
example : jsonParse "" = none := rfl
example : jsonParse " [1, -2.50, \"a\", true, null] " =
    some (.arr [.num 1 [], .num (-2) ['5', '0'], .str "a", .bool true,
      .null]) := rfl
example : pyStrip stripCharsList " 200 OK %\n" = "200 OK" := rfl
example : pyStrip stripCharsList "200 OK%%" = "200 OK" := rfl
example : specClean "200 OK%%" = "200 OK%" := rfl
example : pyInt "12345" = some 12345 := rfl
example : pyInt "12a" = none := rfl

/-- `models.EcowittDeviceDescription`: identifier, model number, optional
display name and firmware version. -/
structure Device : Type where
  deviceId : String
  model : Nat
  name : Option String := none
  swVersion : Option String := none
deriving DecidableEq

/-- What the transport produced for one request: a response body, or a
network error / timeout raised by the HTTP client. -/
inductive DeviceResponse : Type
  | text (raw : String) : DeviceResponse
  | netError : DeviceResponse

/-- Outcome of one `_fetch_device_data` call: the returned record or a raised
exception, the `_last_good_data` cache after the call, and whether
`json.loads` was invoked on the response text. -/
structure FetchStep : Type where
  result : Except Unit JsonValue
  cache : List (String × JsonValue)
  jsonParseAttempted : Bool

/-- `coordinator._get_default_data`: the synthesized record used when a
device acknowledges with a bare status and has no cached data.  Model 1
(WFC01) gets zeroed water fields, every other model the AC1100 fields. -/
def getDefaultData (device : Device) (now : Int) : JsonValue :=
  let base : List (String × JsonValue) :=
    [("model", .num (Int.ofNat device.model) []),
     ("id", .str device.deviceId),
     ("warning", .num 0 []),
     ("rssi", .num 0 []),
     ("gw_rssi", .num 0 []),
     ("timeutc", .num now [])]
  let extra : List (String × JsonValue) :=
    if device.model = 1 then
      [("water_status", .num 0 []),
       ("flow_velocity", .str "0.00"),
       ("water_total", .str "0.00"),
       ("water_temp", .str "20.0")]
    else
      [("ac_status", .num 0 []),
       ("realtime_power", .num 0 []),
       ("ac_voltage", .num 0 []),
       ("ac_current", .num 0 [])]
  .obj [("command", .arr [.obj (base ++ extra)])]

/-- `coordinator._fetch_device_data` for one device, with the HTTP exchange
replaced by the `resp` argument.  A failing `int(device.device_id)` in the
payload build raises before any request; a body trimming to `"200 OK"`
returns cached-good or default data without JSON parsing; otherwise the body
is parsed, a success is stored as last-good data, and a parse failure raises
(`UpdateFailed`). -/
def fetchDeviceData (cache : List (String × JsonValue)) (device : Device)
    (resp : DeviceResponse) (now : Int) : FetchStep :=
  match pyInt device.deviceId with
  | none => ⟨.error (), cache, false⟩
  | some _ =>
    match resp with
    | .netError => ⟨.error (), cache, false⟩
    | .text raw =>
      let text := pyStrip stripCharsList raw
      if text = "200 OK" then
        match lookupD cache device.deviceId with
        | some good => ⟨.ok good, cache, false⟩
        | none => ⟨.ok (getDefaultData device now), cache, false⟩
      else
        match jsonParse text with
        | some data => ⟨.ok data, insertD cache device.deviceId data, true⟩
        | none => ⟨.error (), cache, true⟩

/-- `coordinator._fetch_data`, threading the snapshot under construction
(`acc`) and the last-good cache through the per-device loop.  A raised
per-device fetch is caught: the device falls back to its cached record when
one exists and is otherwise left out of the snapshot; a returned record is
added only when truthy (`if device_data:`). -/
def fetchDataAux (resps : String → DeviceResponse) (now : Int) :
    List Device → List (String × JsonValue) → List (String × JsonValue) →
    List (String × JsonValue) × List (String × JsonValue)
  | [], acc, cache => (acc, cache)
  | device :: rest, acc, cache =>
    let step := fetchDeviceData cache device (resps device.deviceId) now
    let acc2 : List (String × JsonValue) :=
      match step.result with
      | .ok record =>
        if isTruthy record then insertD acc device.deviceId record else acc
      | .error _ =>
        match lookupD step.cache device.deviceId with
        | some good => insertD acc device.deviceId good
        | none => acc
    fetchDataAux resps now rest acc2 step.cache

/-- One full poll cycle over the configured device list, starting from an
empty snapshot: returns the published snapshot and the cache after the
cycle.  Per-device exceptions are all handled inside, so the cycle itself
always completes (an overall transport timeout is outside this model). -/
def fetchData (devices : List Device) (cache : List (String × JsonValue))
    (resps : String → DeviceResponse) (now : Int) :
    List (String × JsonValue) × List (String × JsonValue) :=
  fetchDataAux resps now devices [] cache

/-- The snapshot entry a single device contributes to a cycle, as a function
of that device's own response and the cache the cycle started from. -/
def entryOf (cache : List (String × JsonValue)) (device : Device)
    (resp : DeviceResponse) (now : Int) : Option JsonValue :=
  match (fetchDeviceData cache device resp now).result with
  | .ok record => if isTruthy record then some record else none
  | .error _ => lookupD cache device.deviceId

/-- Body of the `quick_run` write payload built by
`coordinator.set_device_state` for `state=True`. -/
def runPayload (idNum : Int) (model : Nat) : List (String × JsonValue) :=
  [("cmd", .str "quick_run"),
   ("on_type", .num 0 []),
   ("off_type", .num 0 []),
   ("always_on", .num 1 []),
   ("on_time", .num 0 []),
   ("off_time", .num 0 []),
   ("val_type", .num 0 []),
   ("val", .num 0 []),
   ("id", .num idNum []),
   ("model", .num (Int.ofNat model) [])]

/-- Body of the `quick_stop` write payload for `state=False`. -/
def stopPayload (idNum : Int) (model : Nat) : List (String × JsonValue) :=
  [("cmd", .str "quick_stop"),
   ("id", .num idNum []),
   ("model", .num (Int.ofNat model) [])]

/-- The complete JSON body POSTed by `set_device_state`. -/
def commandPayload (state : Bool) (idNum : Int) (model : Nat) : JsonValue :=
  .obj [("command",
    .arr [.obj (if state then runPayload idNum model
                else stopPayload idNum model)])]

/-- How a `set_device_state` call ends: normal return, `ValueError` raised
before the request (unknown device, unparsable id), or `UpdateFailed`. -/
inductive SetResult : Type
  | ok : SetResult
  | valueError : SetResult
  | updateFailed : SetResult
deriving DecidableEq

/-- Externally visible actions of `set_device_state`, in order. -/
inductive CoordAction : Type
  | post (payload : JsonValue) : CoordAction
  | sleep (secs : Nat) : CoordAction
  | requestRefresh : CoordAction

/-- Check for the POST action. -/
def CoordAction.isPost : CoordAction → Bool
  | .post _ => true
  | _ => false

/-- Result and emitted action trace of one `set_device_state` call. -/
structure SetStateStep : Type where
  result : SetResult
  actions : List CoordAction

/-- `coordinator.set_device_state`: look the device up (raising on an
unknown id), build the model-specific payload, POST it, treat exactly the
literal trimmed text `"200 OK"` as success — in which case a fixed one
second settle sleep and an out-of-band refresh request follow — and raise
`UpdateFailed` on any other response, with no retry. -/
def setDeviceState (devices : List Device) (deviceId : String) (state : Bool)
    (resp : DeviceResponse) : SetStateStep :=
  match devices.find? (fun d => d.deviceId == deviceId) with
  | none => ⟨.valueError, []⟩
  | some device =>
    match pyInt deviceId with
    | none => ⟨.valueError, []⟩
    | some idNum =>
      let payload := commandPayload state idNum device.model
      match resp with
      | .netError => ⟨.updateFailed, [.post payload]⟩
      | .text raw =>
        if pyStrip stripCharsList raw = "200 OK" then
          ⟨.ok, [.post payload, .sleep 1, .requestRefresh]⟩
        else
          ⟨.updateFailed, [.post payload]⟩

/-- Result of one Python subscript / attribute step inside an entity
property: a value, an exception the surrounding `except (KeyError,
IndexError)` catches, or an exception it does not. -/
inductive PyStep (α : Type) : Type
  | val (a : α) : PyStep α
  | caught : PyStep α
  | uncaught : PyStep α

/-- Python `v[key]` for a string key: dict lookup (`KeyError` when absent,
caught by the entity properties), `TypeError` (uncaught) on every non-dict
value. -/
def pySubscriptKey (v : JsonValue) (key : String) : PyStep JsonValue :=
  match v with
  | .obj fields =>
    match lookupD fields key with
    | some x => .val x
    | none => .caught
  | _ => .uncaught

/-- Python `v[0]`: list head (`IndexError` on an empty list), first character
of a string, `KeyError` on a string-keyed dict, `TypeError` otherwise. -/
def pySubscriptZero (v : JsonValue) : PyStep JsonValue :=
  match v with
  | .arr (x :: _) => .val x
  | .arr [] => .caught
  | .str s =>
    match s.data with
    | c :: _ => .val (.str (String.mk [c]))
    | [] => .caught
  | .obj _ => .caught
  | _ => .uncaught

/-- Python `v.get(key, default)`: defined on dicts, `AttributeError`
(uncaught) on everything else. -/
def pyDictGet (v : JsonValue) (key : String) (default : JsonValue) :
    PyStep JsonValue :=
  match v with
  | .obj fields => .val ((lookupD fields key).getD default)
  | _ => .uncaught

/-- Run one step under `except (KeyError, IndexError): return None`:
a caught exception becomes the returned `none`, an uncaught one propagates
as `.error`. -/
def pyTry {α : Type} (s : PyStep JsonValue)
    (k : JsonValue → Except Unit (Option α)) : Except Unit (Option α) :=
  match s with
  | .val v => k v
  | .caught => .ok none
  | .uncaught => .error ()

/-- `switch.EcowittSwitch.is_on`: read `data[id]["command"][0]`, then for
model 1 (WFC01) report `bool(water_status) or bool(water_running)` (reading
but ignoring `always_on`), and for every other model `bool(ac_status)`.
`.ok none` is the `None` returned when the lookup chain raises `KeyError` or
`IndexError`. -/
def switchIsOn (model : Nat) (data : List (String × JsonValue))
    (deviceId : String) : Except Unit (Option Bool) :=
  pyTry (match lookupD data deviceId with
         | some v => .val v
         | none => .caught) fun record =>
  pyTry (pySubscriptKey record "command") fun cmd =>
  pyTry (pySubscriptZero cmd) fun deviceData =>
  if model = 1 then
    pyTry (pyDictGet deviceData "water_status" (.num 0 [])) fun w =>
    pyTry (pyDictGet deviceData "always_on" (.num 0 [])) fun _ =>
    pyTry (pyDictGet deviceData "water_running" (.num 0 [])) fun r =>
    .ok (some (isTruthy w || isTruthy r))
  else
    pyTry (pyDictGet deviceData "ac_status" (.num 0 [])) fun ac =>
    .ok (some (isTruthy ac))

/-- Python `len(v)` on a JSON value: defined for lists, strings and dicts,
`TypeError` otherwise. -/
def pyLen : JsonValue → Option Nat
  | .arr xs => some xs.length
  | .str s => some s.length
  | .obj fields => some fields.length
  | _ => none

/-- `switch.EcowittSwitch.available`: `super().available` (the coordinator's
last-refresh success flag) and the device id being a key of the snapshot and
`len(data[id].get("command", [])) > 0`.  `.error` is an uncaught exception
from `.get`/`len` on an ill-typed record. -/
def switchAvailable (lastUpdateSuccess : Bool)
    (data : List (String × JsonValue)) (deviceId : String) :
    Except Unit Bool :=
  if lastUpdateSuccess then
    match lookupD data deviceId with
    | none => .ok false
    | some record =>
      match record with
      | .obj fields =>
        match pyLen ((lookupD fields "command").getD (.arr [])) with
        | some n => .ok (decide (0 < n))
        | none => .error ()
      | _ => .error ()
  else .ok false

/-- `sensor.EcowittSensor.available`, textually identical to the switch
property. -/
def sensorAvailable (lastUpdateSuccess : Bool)
    (data : List (String × JsonValue)) (deviceId : String) :
    Except Unit Bool :=
  if lastUpdateSuccess then
    match lookupD data deviceId with
    | none => .ok false
    | some record =>
      match record with
      | .obj fields =>
        match pyLen ((lookupD fields "command").getD (.arr [])) with
        | some n => .ok (decide (0 < n))
        | none => .error ()
      | _ => .error ()
  else .ok false

/-- `binary_sensor.EcowittBinarySensor.available`, textually identical to
the switch property. -/
def binarySensorAvailable (lastUpdateSuccess : Bool)
    (data : List (String × JsonValue)) (deviceId : String) :
    Except Unit Bool :=
  if lastUpdateSuccess then
    match lookupD data deviceId with
    | none => .ok false
    | some record =>
      match record with
      | .obj fields =>
        match pyLen ((lookupD fields "command").getD (.arr [])) with
        | some n => .ok (decide (0 < n))
        | none => .error ()
      | _ => .error ()
  else .ok false

/-- Availability as the specification words it: the last refresh succeeded,
the identifier is a key of the snapshot, and the record's `command` field is
a list with at least one element. -/
def specAvailable (lastUpdateSuccess : Bool)
    (data : List (String × JsonValue)) (deviceId : String) : Bool :=
  lastUpdateSuccess &&
    match lookupD data deviceId with
    | some (.obj fields) =>
      match lookupD fields "command" with
      | some (.arr (_ :: _)) => true
      | _ => false
    | _ => false

/-- A snapshot record whose `command` field, when present, is a list.  This
is a genuine restriction, not an invariant of the program: the polling path
stores arbitrary parsed JSON (see `parsed_json_accepted`), so records
violating it — e.g. a string-valued `command` — are reachable, and on them
the code's `len`-based availability test diverges from the list-shaped
reading (see `availability_counterexample`). -/
def commandShapeOk : JsonValue → Bool
  | .obj fields =>
    match lookupD fields "command" with
    | none => true
    | some (.arr _) => true
    | some _ => false
  | _ => false

/-- `commandShapeOk` at a snapshot key (vacuously true when absent). -/
def commandShapeOkAt (data : List (String × JsonValue))
    (deviceId : String) : Bool :=
  match lookupD data deviceId with
  | some record => commandShapeOk record
  | none => true

/-- Field `key` of the flattened `command[0]` record inside a full device
record. -/
def recordField (v : JsonValue) (key : String) : Option JsonValue :=
  match v with
  | .obj fields =>
    match lookupD fields "command" with
    | some (.arr (.obj deviceData :: _)) => lookupD deviceData key
    | _ => none
  | _ => none

/-- Outcome of `config_flow.validate_input`'s response handling. -/
inductive ValidateResult : Type
  | invalidResponse : ValidateResult
  | invalidJson : ValidateResult
  | invalidFormat : ValidateResult
  | parsed (devices : JsonValue) : ValidateResult

/-- Result of the device-list validation plus whether `json.loads` ran. -/
structure ValidateStep : Type where
  result : ValidateResult
  jsonParseAttempted : Bool

/-- The response-validation portion of `config_flow.validate_input`: trim
with the same character set, reject empty or `<`-prefixed text before any
JSON parse, then parse and require a dict containing a `command` key (the
later per-device extraction is not modelled). -/
def validateDeviceList (raw : String) : ValidateStep :=
  let text := pyStrip stripCharsList raw
  if text = "" || startsWithLt text then ⟨.invalidResponse, false⟩
  else
    match jsonParse text with
    | none => ⟨.invalidJson, true⟩
    | some devices =>
      match devices with
      | .obj fields =>
        match lookupD fields "command" with
        | some _ => ⟨.parsed devices, true⟩
        | none => ⟨.invalidFormat, true⟩
      | _ => ⟨.invalidFormat, true⟩

/-- Modelled from the spec: the repository's `command_queue` module
(`EcowittCommandQueue`, imported by `tests/ecowitt_iot/test_switch.py` as
`custom_components.ecowitt_iot.command_queue`) is missing from the source
tree, so the PendingCommand record of spec section 3 is modelled from the
spec's words. -/
structure PendingCommand : Type where
  targetState : Bool
  submittedAt : Int
  attempts : Nat
  lastError : Option String
deriving DecidableEq

/-- Modelled from the spec: the bounded verification-attempt ceiling of spec
section 4.3 (recommended value 3). -/
def maxVerificationAttempts : Nat := 3

/-- Modelled from the spec: the pending-command store, at most one entry per
device identifier. -/
def QueueMap : Type := String → Option PendingCommand

/-- Modelled from the spec: record a PendingCommand with the given target,
submission time and attempt count 0, replacing any pending command for the
device. -/
def addCommand (q : QueueMap) (deviceId : String) (target : Bool)
    (now : Int) : QueueMap :=
  fun k => if k = deviceId then some ⟨target, now, 0, none⟩ else q k

/-- Modelled from the spec: drop the device's pending command. -/
def clearCommand (q : QueueMap) (deviceId : String) : QueueMap :=
  fun k => if k = deviceId then none else q k

/-- Modelled from the spec: reconciliation of one published observation
against a pending command (spec section 4.3 step 5) — clear on match,
increment the attempt count below the ceiling, mark a terminal error at the
ceiling. -/
def reconcile (q : QueueMap) (deviceId : String) (observed : Bool) :
    QueueMap :=
  match q deviceId with
  | none => q
  | some pc =>
    if observed = pc.targetState then clearCommand q deviceId
    else if pc.attempts < maxVerificationAttempts then
      fun k => if k = deviceId then
        some ⟨pc.targetState, pc.submittedAt, pc.attempts + 1, pc.lastError⟩
      else q k
    else
      fun k => if k = deviceId then
        some ⟨pc.targetState, pc.submittedAt, pc.attempts,
          some "reconciliation exhausted"⟩
      else q k

/-- Iterate `n` reconciliations that each observe the opposite of the
command's target. -/
def reconcileMismatchN (deviceId : String) (target : Bool) :
    Nat → QueueMap → QueueMap
  | 0, q => q
  | n + 1, q => reconcileMismatchN deviceId target n (reconcile q deviceId (!target))

/-- The device's pending command exists and carries a terminal error. -/
def pendingTerminal (q : QueueMap) (deviceId : String) : Bool :=
  match q deviceId with
  | some pc => pc.lastError.isSome
  | none => false

/-- Ordered externally visible events of a reconciled `setState` call. -/
inductive CommandEvent : Type
  | post (payload : JsonValue) : CommandEvent
  | recordPending (deviceId : String) (target : Bool) : CommandEvent
  | sleep (secs : Nat) : CommandEvent
  | requestRefresh : CommandEvent

/-- Result, queue and event trace of one reconciled `setState` call. -/
structure SetStateModelStep : Type where
  result : SetResult
  queue : QueueMap
  events : List CommandEvent

/-- Modelled from the spec: `setState` with pending-command recording.  The
acceptance test (trimmed response text equal to `"200 OK"`), payload and
device lookup follow `coordinator.set_device_state`; the PendingCommand
recording between acceptance and the settle delay follows spec section 4.3
step 4, the part whose implementing module is missing from the source
tree. -/
def setStateWithQueue (devices : List Device) (q : QueueMap)
    (deviceId : String) (target : Bool) (resp : DeviceResponse)
    (now : Int) : SetStateModelStep :=
  match devices.find? (fun d => d.deviceId == deviceId) with
  | none => ⟨.valueError, q, []⟩
  | some device =>
    match pyInt deviceId with
    | none => ⟨.valueError, q, []⟩
    | some idNum =>
      let payload := commandPayload target idNum device.model
      match resp with
      | .netError => ⟨.updateFailed, q, [.post payload]⟩
      | .text raw =>
        if pyStrip stripCharsList raw = "200 OK" then
          ⟨.ok, addCommand q deviceId target now,
            [.post payload, .recordPending deviceId target, .sleep 1,
             .requestRefresh]⟩
        else
          ⟨.updateFailed, q, [.post payload]⟩

/-- A WFC01 water-valve device with identifier 12345, used in concrete
instances. -/
def wfcDevice : Device := ⟨"12345", 1, none, none⟩

/-- An AC1100 power-plug device with identifier 23456, used in concrete
instances. -/
def acDevice : Device := ⟨"23456", 2, none, none⟩

theorem lookupD_insertD_self {α : Type} (l : List (String × α)) (key : String)
    (val : α) : lookupD (insertD l key val) key = some val := by
  induction l with
  | nil => simp [insertD, lookupD]
  | cons hd tl ih =>
    obtain ⟨k1, v1⟩ := hd
    by_cases hk : k1 = key
    · simp [insertD, hk, lookupD]
    · simp [insertD, hk, lookupD, ih]

theorem lookupD_insertD_ne {α : Type} (l : List (String × α)) (key key' : String)
    (val : α) (h : key ≠ key') :
    lookupD (insertD l key val) key' = lookupD l key' := by
  have h' : key' ≠ key := Ne.symm h
  induction l with
  | nil => simp [insertD, lookupD, h]
  | cons hd tl ih =>
    obtain ⟨k1, v1⟩ := hd
    by_cases hk : k1 = key
    · subst hk; simp [insertD, lookupD, h, h']
    · by_cases hk' : k1 = key' <;> simp [insertD, hk, lookupD, hk', ih, h']

theorem fetchDeviceData_result_congr (c1 c2 : List (String × JsonValue))
    (d : Device) (resp : DeviceResponse) (now : Int)
    (h : lookupD c1 d.deviceId = lookupD c2 d.deviceId) :
    (fetchDeviceData c1 d resp now).result =
      (fetchDeviceData c2 d resp now).result := by
  rcases hpi : pyInt d.deviceId with _ | idNum
  · simp [fetchDeviceData, hpi]
  · cases resp with
    | netError => simp [fetchDeviceData, hpi]
    | text raw =>
      by_cases hs : pyStrip stripCharsList raw = "200 OK"
      · rcases hc : lookupD c2 d.deviceId with _ | good <;>
          simp [fetchDeviceData, hpi, hs, hc, h]
      · rcases hj : jsonParse (pyStrip stripCharsList raw) with _ | data <;>
          simp [fetchDeviceData, hpi, hs, hj]

theorem fetchDeviceData_cache_ne (cache : List (String × JsonValue))
    (d : Device) (resp : DeviceResponse) (now : Int) (key : String)
    (h : d.deviceId ≠ key) :
    lookupD (fetchDeviceData cache d resp now).cache key = lookupD cache key := by
  rcases hpi : pyInt d.deviceId with _ | idNum
  · simp [fetchDeviceData, hpi]
  · cases resp with
    | netError => simp [fetchDeviceData, hpi]
    | text raw =>
      by_cases hs : pyStrip stripCharsList raw = "200 OK"
      · rcases hc : lookupD cache d.deviceId with _ | good <;>
          simp [fetchDeviceData, hpi, hs, hc]
      · rcases hj : jsonParse (pyStrip stripCharsList raw) with _ | data <;>
          simp [fetchDeviceData, hpi, hs, hj, lookupD_insertD_ne _ _ _ _ h]

theorem fetchDeviceData_cache_of_error (cache : List (String × JsonValue))
    (d : Device) (resp : DeviceResponse) (now : Int)
    (h : (fetchDeviceData cache d resp now).result = .error ()) :
    (fetchDeviceData cache d resp now).cache = cache := by
  rcases hpi : pyInt d.deviceId with _ | idNum
  · simp [fetchDeviceData, hpi]
  · cases resp with
    | netError => simp [fetchDeviceData, hpi]
    | text raw =>
      by_cases hs : pyStrip stripCharsList raw = "200 OK"
      · rcases hc : lookupD cache d.deviceId with _ | good <;>
          simp [fetchDeviceData, hpi, hs, hc]
      · rcases hj : jsonParse (pyStrip stripCharsList raw) with _ | data
        · simp [fetchDeviceData, hpi, hs, hj]
        · exfalso
          simp [fetchDeviceData, hpi, hs, hj] at h

theorem entryOf_congr (c1 c2 : List (String × JsonValue)) (d : Device)
    (resp : DeviceResponse) (now : Int)
    (h : lookupD c1 d.deviceId = lookupD c2 d.deviceId) :
    entryOf c1 d resp now = entryOf c2 d resp now := by
  unfold entryOf
  rw [fetchDeviceData_result_congr c1 c2 d resp now h]
  cases (fetchDeviceData c2 d resp now).result <;> simp [h]

theorem fetchDataAux_cons (resps : String → DeviceResponse) (now : Int)
    (d : Device) (rest : List Device)
    (acc cache : List (String × JsonValue)) :
    fetchDataAux resps now (d :: rest) acc cache =
      fetchDataAux resps now rest
        (match (fetchDeviceData cache d (resps d.deviceId) now).result with
         | .ok record =>
           if isTruthy record then insertD acc d.deviceId record else acc
         | .error _ =>
           match lookupD (fetchDeviceData cache d (resps d.deviceId) now).cache
               d.deviceId with
           | some good => insertD acc d.deviceId good
           | none => acc)
        (fetchDeviceData cache d (resps d.deviceId) now).cache := rfl

theorem fetchDataAux_lookup_of_not_mem (resps : String → DeviceResponse)
    (now : Int) :
    ∀ (devices : List Device) (acc cache : List (String × JsonValue))
      (key : String), (∀ e ∈ devices, e.deviceId ≠ key) →
    lookupD (fetchDataAux resps now devices acc cache).1 key =
      lookupD acc key := by
  intro devices
  induction devices with
  | nil => intro acc cache key _; rfl
  | cons d rest ih =>
    intro acc cache key h
    rw [fetchDataAux_cons]
    rw [ih _ _ _ (fun e he => h e (List.mem_cons_of_mem _ he))]
    have hd : d.deviceId ≠ key := h d (List.mem_cons_self _ _)
    cases (fetchDeviceData cache d (resps d.deviceId) now).result with
    | ok record =>
      by_cases ht : isTruthy record <;>
        simp [ht, lookupD_insertD_ne _ _ _ _ hd]
    | error e =>
      rcases hc : lookupD (fetchDeviceData cache d (resps d.deviceId) now).cache
          d.deviceId with _ | good <;>
        simp [hc, lookupD_insertD_ne _ _ _ _ hd]

theorem fetchDataAux_lookup_of_mem (resps : String → DeviceResponse)
    (now : Int) :
    ∀ (devices : List Device) (acc cache : List (String × JsonValue))
      (d : Device),
    (devices.map (fun x => x.deviceId)).Nodup → d ∈ devices →
    lookupD (fetchDataAux resps now devices acc cache).1 d.deviceId =
      match entryOf cache d (resps d.deviceId) now with
      | some v => some v
      | none => lookupD acc d.deviceId := by
  intro devices
  induction devices with
  | nil => intro acc cache d _ hd; exact absurd hd (List.not_mem_nil d)
  | cons e rest ih =>
    intro acc cache d hnodup hd
    have hnodup' : (∀ x ∈ rest, ¬x.deviceId = e.deviceId) ∧
        (rest.map (fun x => x.deviceId)).Nodup := by simpa using hnodup
    rcases List.mem_cons.mp hd with rfl | hdrest
    · rw [fetchDataAux_cons]
      have hnot : ∀ x ∈ rest, x.deviceId ≠ d.deviceId := fun x hx =>
        hnodup'.1 x hx
      rw [fetchDataAux_lookup_of_not_mem resps now rest _ _ _ hnot]
      unfold entryOf
      cases hres : (fetchDeviceData cache d (resps d.deviceId) now).result with
      | ok record =>
        by_cases ht : isTruthy record <;>
          simp [ht, lookupD_insertD_self]
      | error err =>
        have hcc := fetchDeviceData_cache_of_error cache d (resps d.deviceId)
          now (by cases err; exact hres)
        rw [hcc]
        rcases hc : lookupD cache d.deviceId with _ | good <;>
          simp [hc, lookupD_insertD_self]
    · have hne : e.deviceId ≠ d.deviceId := fun hc =>
        hnodup'.1 d hdrest hc.symm
      rw [fetchDataAux_cons]
      rw [ih _ _ d hnodup'.2 hdrest]
      have hcache : lookupD
          (fetchDeviceData cache e (resps e.deviceId) now).cache d.deviceId =
          lookupD cache d.deviceId :=
        fetchDeviceData_cache_ne cache e (resps e.deviceId) now d.deviceId hne
      rw [entryOf_congr _ _ _ _ _ hcache]
      have hacc : lookupD
          (match (fetchDeviceData cache e (resps e.deviceId) now).result with
           | .ok record =>
             if isTruthy record then insertD acc e.deviceId record else acc
           | .error _ =>
             match lookupD (fetchDeviceData cache e (resps e.deviceId) now).cache
                 e.deviceId with
             | some good => insertD acc e.deviceId good
             | none => acc) d.deviceId = lookupD acc d.deviceId := by
        cases (fetchDeviceData cache e (resps e.deviceId) now).result with
        | ok record =>
          by_cases ht : isTruthy record <;>
            simp [ht, lookupD_insertD_ne _ _ _ _ hne]
        | error err =>
          rcases hc : lookupD (fetchDeviceData cache e (resps e.deviceId) now).cache
              e.deviceId with _ | good <;>
            simp [hc, lookupD_insertD_ne _ _ _ _ hne]
      rw [hacc]

theorem parseCore_value_lt (fuel : Nat) (cs : List Char) :
    parseCore (fuel + 1) .value ('<' :: cs) = none := rfl

theorem jsonParse_empty : jsonParse "" = none := rfl

theorem jsonParse_of_startsWithLt (s : String) (h : startsWithLt s = true) :
    jsonParse s = none := by
  unfold startsWithLt at h
  rcases hd : s.data with _ | ⟨c, cs⟩ <;> rw [hd] at h
  · exact absurd h (by decide)
  · have hc : c = '<' := of_decide_eq_true h
    subst hc
    unfold jsonParse
    rw [hd]
    have hfuel : ('<' :: cs).length * 2 + 8 = (('<' :: cs).length * 2 + 7) + 1 :=
      rfl
    rw [hfuel, parseCore_value_lt]

/-- C2: the claim that every registered device has a snapshot entry after one
successful refresh is false — a device whose response fails to parse and that
has no cached record is omitted from the snapshot even though the cycle
completes: one WFC01 device, response text `"not json\x7b"`, empty cache. -/
theorem snapshot_entry_counterexample :
    wfcDevice ∈ [wfcDevice] ∧
    lookupD (fetchData [wfcDevice] [] (fun _ => .text "not json\x7b") 0).1
      wfcDevice.deviceId = none :=
  ⟨List.mem_singleton.mpr rfl, rfl⟩

/-- C2 (amended): for a registry without duplicate identifiers, after one
refresh each device's snapshot entry is exactly `entryOf`: the fetched record
when the fetch returned a truthy record, the cached last-good record when the
fetch raised and the cache holds one, and absent otherwise. -/
theorem snapshot_entry_characterization (devices : List Device)
    (cache : List (String × JsonValue)) (resps : String → DeviceResponse)
    (now : Int) (d : Device)
    (hnodup : (devices.map (fun x => x.deviceId)).Nodup) (hd : d ∈ devices) :
    lookupD (fetchData devices cache resps now).1 d.deviceId =
      entryOf cache d (resps d.deviceId) now := by
  unfold fetchData
  rw [fetchDataAux_lookup_of_mem resps now devices [] cache d hnodup hd]
  cases entryOf cache d (resps d.deviceId) now <;> rfl

/-- Instance of `snapshot_entry_characterization` at a one-device registry
whose device acknowledges with `"200 OK"` on an empty cache. -/
theorem snapshot_entry_characterization_instance :
    ([wfcDevice].map (fun x => x.deviceId)).Nodup ∧ wfcDevice ∈ [wfcDevice] ∧
    lookupD (fetchData [wfcDevice] [] (fun _ => .text "200 OK") 7).1
      wfcDevice.deviceId = entryOf [] wfcDevice (.text "200 OK") 7 ∧
    entryOf [] wfcDevice (.text "200 OK") 7 = some (getDefaultData wfcDevice 7) :=
  ⟨by simp, List.mem_singleton.mpr rfl,
    snapshot_entry_characterization [wfcDevice] [] (fun _ => .text "200 OK") 7
      wfcDevice (by simp) (List.mem_singleton.mpr rfl), rfl⟩

/-- C4: devices are fetched independently — a device's snapshot entry depends
only on its own response (changing another device's response, including to a
failure, leaves it unchanged), and a device whose own fetch raises falls back
to its cache entry at that key, present or absent. -/
theorem per_device_isolation (devices : List Device)
    (cache : List (String × JsonValue))
    (resps resps' : String → DeviceResponse) (now : Int) (d e : Device)
    (hnodup : (devices.map (fun x => x.deviceId)).Nodup)
    (hd : d ∈ devices) (he : e ∈ devices)
    (hagree : resps e.deviceId = resps' e.deviceId)
    (herr : (fetchDeviceData cache d (resps d.deviceId) now).result =
      .error ()) :
    lookupD (fetchData devices cache resps now).1 e.deviceId =
      lookupD (fetchData devices cache resps' now).1 e.deviceId ∧
    lookupD (fetchData devices cache resps now).1 d.deviceId =
      lookupD cache d.deviceId := by
  constructor
  · unfold fetchData
    rw [fetchDataAux_lookup_of_mem resps now devices [] cache e hnodup he,
      fetchDataAux_lookup_of_mem resps' now devices [] cache e hnodup he,
      hagree]
  · unfold fetchData
    rw [fetchDataAux_lookup_of_mem resps now devices [] cache d hnodup hd]
    have hentry : entryOf cache d (resps d.deviceId) now =
        lookupD cache d.deviceId := by
      unfold entryOf
      rw [herr]
    rw [hentry]
    cases lookupD cache d.deviceId <;> rfl

/-- Instance of `per_device_isolation`: two devices, the first timing out
while the second answers; the second's entry matches the run where the first
instead succeeds, and the first falls back to its (empty) cache. -/
theorem per_device_isolation_instance :
    (([wfcDevice, acDevice].map (fun x => x.deviceId)).Nodup ∧
      (fetchDeviceData []
        wfcDevice ((fun i => if i = "12345" then DeviceResponse.netError
          else DeviceResponse.text "\x7b\"ok\": 1\x7d") wfcDevice.deviceId)
        0).result = .error ()) ∧
    lookupD (fetchData [wfcDevice, acDevice] []
      (fun i => if i = "12345" then DeviceResponse.netError
        else DeviceResponse.text "\x7b\"ok\": 1\x7d") 0).1 acDevice.deviceId =
      lookupD (fetchData [wfcDevice, acDevice] []
        (fun _ => DeviceResponse.text "\x7b\"ok\": 1\x7d") 0).1
        acDevice.deviceId ∧
    lookupD (fetchData [wfcDevice, acDevice] []
      (fun i => if i = "12345" then DeviceResponse.netError
        else DeviceResponse.text "\x7b\"ok\": 1\x7d") 0).1
      wfcDevice.deviceId = lookupD [] wfcDevice.deviceId :=
  ⟨⟨by decide, rfl⟩,
    per_device_isolation [wfcDevice, acDevice] [] _ _ 0 wfcDevice acDevice
      (by decide) (by decide) (by decide) rfl rfl⟩

/-- C3: a poll response trimming to `"200 OK"` performs no JSON parse and
leaves the cache untouched; the returned record is the cached last-good
record when one exists and otherwise the synthesized model-specific default,
whose activity fields are zero/zero-equivalent and whose `timeutc` field is
the current time; a snapshot holding the default record reports the device
available. -/
theorem plain_ack_fallback_and_default (cache : List (String × JsonValue))
    (d : Device) (raw : String) (now : Int) (idNum : Int)
    (hid : pyInt d.deviceId = some idNum)
    (hack : pyStrip stripCharsList raw = "200 OK") :
    (fetchDeviceData cache d (.text raw) now).jsonParseAttempted = false ∧
    (fetchDeviceData cache d (.text raw) now).cache = cache ∧
    (fetchDeviceData cache d (.text raw) now).result =
      .ok ((lookupD cache d.deviceId).getD (getDefaultData d now)) ∧
    recordField (getDefaultData d now) "timeutc" = some (.num now []) ∧
    (d.model = 1 →
      recordField (getDefaultData d now) "water_status" = some (.num 0 []) ∧
      recordField (getDefaultData d now) "flow_velocity" =
        some (.str "0.00") ∧
      recordField (getDefaultData d now) "water_total" = some (.str "0.00")) ∧
    (d.model ≠ 1 →
      recordField (getDefaultData d now) "ac_status" = some (.num 0 []) ∧
      recordField (getDefaultData d now) "realtime_power" =
        some (.num 0 []) ∧
      recordField (getDefaultData d now) "ac_voltage" = some (.num 0 []) ∧
      recordField (getDefaultData d now) "ac_current" = some (.num 0 [])) ∧
    switchAvailable true [(d.deviceId, getDefaultData d now)] d.deviceId =
      .ok true := by
  refine ⟨?_, ?_, ?_, ?_, ?_, ?_, ?_⟩
  · rcases hc : lookupD cache d.deviceId with _ | good <;>
      simp [fetchDeviceData, hid, hack, hc]
  · rcases hc : lookupD cache d.deviceId with _ | good <;>
      simp [fetchDeviceData, hid, hack, hc]
  · rcases hc : lookupD cache d.deviceId with _ | good <;>
      simp [fetchDeviceData, hid, hack, hc]
  · by_cases hm : d.model = 1 <;>
      simp [getDefaultData, recordField, hm, lookupD]
  · intro hm
    refine ⟨?_, ?_, ?_⟩ <;> simp [getDefaultData, recordField, hm, lookupD]
  · intro hm
    refine ⟨?_, ?_, ?_, ?_⟩ <;> simp [getDefaultData, recordField, hm, lookupD]
  · by_cases hm : d.model = 1 <;>
      simp [switchAvailable, getDefaultData, hm, lookupD, pyLen]

/-- Instance of `plain_ack_fallback_and_default` for the specified WFC01
scenario: identifier 12345, never previously polled, poll answers
`" 200 OK %\n"`. -/
theorem plain_ack_fallback_and_default_instance :
    pyInt wfcDevice.deviceId = some 12345 ∧
    pyStrip stripCharsList " 200 OK %\n" = "200 OK" ∧
    (fetchDeviceData [] wfcDevice (.text " 200 OK %\n") 5).result =
      .ok ((lookupD [] wfcDevice.deviceId).getD (getDefaultData wfcDevice 5)) ∧
    switchAvailable true [(wfcDevice.deviceId, getDefaultData wfcDevice 5)]
      wfcDevice.deviceId = .ok true :=
  ⟨rfl, rfl,
    (plain_ack_fallback_and_default [] wfcDevice " 200 OK %\n" 5 12345 rfl
      rfl).2.2.1,
    (plain_ack_fallback_and_default [] wfcDevice " 200 OK %\n" 5 12345 rfl
      rfl).2.2.2.2.2.2⟩

/-- C5: the claim's trim rule (leading/trailing whitespace plus one trailing
percent) disagrees with the code's `strip(" %\n\r")` at `"200 OK%%"`: the
code removes both percent signs and classifies the response as a plain
acknowledgement with no JSON parse, while the claimed rule leaves
`"200 OK%"`. -/
theorem trim_rule_counterexample :
    pyStrip stripCharsList "200 OK%%" = "200 OK" ∧
    specClean "200 OK%%" = "200 OK%" ∧
    pyStrip stripCharsList "200 OK%%" ≠ specClean "200 OK%%" ∧
    (fetchDeviceData [] wfcDevice (.text "200 OK%%") 0).jsonParseAttempted =
      false ∧
    (fetchDeviceData [] wfcDevice (.text "200 OK%%") 0).result =
      .ok (getDefaultData wfcDevice 0) :=
  ⟨rfl, rfl, by decide, rfl, rfl⟩

/-- C5 (amended): the trim removes every leading and trailing space, percent,
newline and carriage-return character; whenever the trimmed text equals
`"200 OK"` the response is treated as a plain acknowledgement — no JSON parse
is attempted and the cached or default record is returned. -/
theorem trim_rule_ack (cache : List (String × JsonValue)) (d : Device)
    (raw : String) (now : Int) (idNum : Int)
    (hid : pyInt d.deviceId = some idNum)
    (hack : pyStrip stripCharsList raw = "200 OK") :
    (fetchDeviceData cache d (.text raw) now).jsonParseAttempted = false ∧
    (fetchDeviceData cache d (.text raw) now).result =
      .ok ((lookupD cache d.deviceId).getD (getDefaultData d now)) := by
  constructor <;>
    (rcases hc : lookupD cache d.deviceId with _ | good <;>
      simp [fetchDeviceData, hid, hack, hc])

/-- Instance of `trim_rule_ack` at the spec's own example text
`" 200 OK %\n"`. -/
theorem trim_rule_ack_instance :
    pyStrip stripCharsList " 200 OK %\n" = "200 OK" ∧
    (fetchDeviceData [] wfcDevice (.text " 200 OK %\n") 3).jsonParseAttempted =
      false :=
  ⟨rfl, (trim_rule_ack [] wfcDevice " 200 OK %\n" 3 12345 rfl rfl).1⟩

/-- C6: in the polling path an HTML response is not classified before JSON
parsing — `json.loads` is invoked on `"<html>error</html>"` and its failure
raises, contradicting the claim that such text is classified with no JSON
parse attempted. -/
theorem html_response_counterexample :
    (fetchDeviceData [] wfcDevice (.text "<html>error</html>")
      0).jsonParseAttempted = true ∧
    (fetchDeviceData [] wfcDevice (.text "<html>error</html>") 0).result =
      .error () :=
  ⟨rfl, rfl⟩

/-- C6 (amended): only the config-flow device-list validation pre-checks for
empty or `<`-prefixed text, rejecting it with no JSON parse; the polling path
has no such check — the same text goes straight to `json.loads`, which fails,
and the per-device fetch raises (falling back to cache-or-omission
upstream). -/
theorem html_response_paths (cache : List (String × JsonValue)) (d : Device)
    (raw : String) (now : Int) (idNum : Int)
    (hid : pyInt d.deviceId = some idNum)
    (h : pyStrip stripCharsList raw = "" ∨
      startsWithLt (pyStrip stripCharsList raw) = true) :
    (validateDeviceList raw).jsonParseAttempted = false ∧
    (validateDeviceList raw).result = .invalidResponse ∧
    (fetchDeviceData cache d (.text raw) now).jsonParseAttempted = true ∧
    (fetchDeviceData cache d (.text raw) now).result = .error () := by
  have hcond : (decide (pyStrip stripCharsList raw = "") ||
      startsWithLt (pyStrip stripCharsList raw)) = true := by
    rcases h with h | h <;> simp [h]
  have hne : pyStrip stripCharsList raw ≠ "200 OK" := by
    rcases h with h | h
    · rw [h]; decide
    · intro hcontra
      rw [hcontra] at h
      exact absurd h (by decide)
  have hj : jsonParse (pyStrip stripCharsList raw) = none := by
    rcases h with h | h
    · rw [h]
      exact jsonParse_empty
    · exact jsonParse_of_startsWithLt _ h
  refine ⟨?_, ?_, ?_, ?_⟩ <;>
    simp [validateDeviceList, fetchDeviceData, hcond, hid, hne, hj]

/-- Instance of `html_response_paths` at `"<html>error</html>"`. -/
theorem html_response_paths_instance :
    (pyStrip stripCharsList "<html>error</html>" = "" ∨
      startsWithLt (pyStrip stripCharsList "<html>error</html>") = true) ∧
    (validateDeviceList "<html>error</html>").jsonParseAttempted = false ∧
    (fetchDeviceData [] wfcDevice (.text "<html>error</html>")
      0).jsonParseAttempted = true :=
  ⟨Or.inr rfl,
    (html_response_paths [] wfcDevice "<html>error</html>" 0 12345 rfl
      (Or.inr rfl)).1,
    (html_response_paths [] wfcDevice "<html>error</html>" 0 12345 rfl
      (Or.inr rfl)).2.2.1⟩

/-- C7: the polling path performs no shape validation on parsed JSON — the
object parsed from a body with no `command` list is returned as the device
record and stored as last-good data, contradicting the claimed
`UnexpectedShape` rejection. -/
theorem shape_check_counterexample :
    jsonParse "\x7b\"x\": 1\x7d" = some (.obj [("x", .num 1 [])]) ∧
    lookupD [("x", JsonValue.num 1 [])] "command" = none ∧
    (fetchDeviceData [] wfcDevice (.text "\x7b\"x\": 1\x7d") 0).result =
      .ok (.obj [("x", .num 1 [])]) ∧
    (fetchDeviceData [] wfcDevice (.text "\x7b\"x\": 1\x7d") 0).cache =
      [("12345", .obj [("x", .num 1 [])])] :=
  ⟨rfl, rfl, rfl, rfl⟩

/-- C7 (amended): every successfully parsed poll body, of any shape, is
returned as the device record and stored in the last-good cache; no
`command`-list check exists in this path. -/
theorem parsed_json_accepted (cache : List (String × JsonValue)) (d : Device)
    (raw : String) (now : Int) (idNum : Int) (j : JsonValue)
    (hid : pyInt d.deviceId = some idNum)
    (hne : pyStrip stripCharsList raw ≠ "200 OK")
    (hparse : jsonParse (pyStrip stripCharsList raw) = some j) :
    (fetchDeviceData cache d (.text raw) now).result = .ok j ∧
    (fetchDeviceData cache d (.text raw) now).cache =
      insertD cache d.deviceId j ∧
    (fetchDeviceData cache d (.text raw) now).jsonParseAttempted = true := by
  refine ⟨?_, ?_, ?_⟩ <;> simp [fetchDeviceData, hid, hne, hparse]

/-- Instance of `parsed_json_accepted` at the commandless object body. -/
theorem parsed_json_accepted_instance :
    pyStrip stripCharsList "\x7b\"x\": 1\x7d" ≠ "200 OK" ∧
    (fetchDeviceData [] wfcDevice (.text "\x7b\"x\": 1\x7d") 0).cache =
      insertD [] wfcDevice.deviceId (.obj [("x", .num 1 [])]) :=
  ⟨by decide,
    (parsed_json_accepted [] wfcDevice "\x7b\"x\": 1\x7d" 0 12345
      (.obj [("x", .num 1 [])]) rfl (by decide) rfl).2.1⟩

/-- C8: for a known, numerically-identified device, a `set_device_state` call
succeeds exactly when the response text trims to the literal `"200 OK"`; any
other text makes the call raise `UpdateFailed` synchronously, and in every
case exactly one POST is issued — there is no automatic retry. -/
theorem set_state_success_iff_ok (devices : List Device) (deviceId : String)
    (state : Bool) (raw : String) (dev : Device) (idNum : Int)
    (hfind : devices.find? (fun d => d.deviceId == deviceId) = some dev)
    (hid : pyInt deviceId = some idNum) :
    ((setDeviceState devices deviceId state (.text raw)).result = .ok ↔
      pyStrip stripCharsList raw = "200 OK") ∧
    (pyStrip stripCharsList raw ≠ "200 OK" →
      (setDeviceState devices deviceId state (.text raw)).result =
        .updateFailed) ∧
    (setDeviceState devices deviceId state (.text raw)).actions.countP
      (fun a => a.isPost) = 1 := by
  by_cases hs : pyStrip stripCharsList raw = "200 OK" <;>
    simp [setDeviceState, hfind, hid, hs, List.countP_cons, CoordAction.isPost]

/-- Instance of `set_state_success_iff_ok`: device 12345, rejection text
`"FAIL"` (for which the call fails) on a one-device registry. -/
theorem set_state_success_iff_ok_instance :
    [wfcDevice].find? (fun d => d.deviceId == "12345") = some wfcDevice ∧
    pyInt "12345" = some 12345 ∧
    ((setDeviceState [wfcDevice] "12345" true (.text "FAIL")).result = .ok ↔
      pyStrip stripCharsList "FAIL" = "200 OK") ∧
    (setDeviceState [wfcDevice] "12345" true (.text "FAIL")).actions.countP
      (fun a => a.isPost) = 1 :=
  ⟨rfl, rfl,
    (set_state_success_iff_ok [wfcDevice] "12345" true "FAIL" wfcDevice 12345
      rfl rfl).1,
    (set_state_success_iff_ok [wfcDevice] "12345" true "FAIL" wfcDevice 12345
      rfl rfl).2.2⟩

/-- C9: on a well-shaped snapshot record the switch's observed state is
model-specific — for the valve model (1) the logical OR of the truthiness of
`water_status` and `water_running`, and for every other model (the power
plug) the truthiness of `ac_status`. -/
theorem switch_observed_state (model : Nat)
    (data : List (String × JsonValue)) (deviceId : String)
    (fields deviceData : List (String × JsonValue)) (tail : List JsonValue)
    (h1 : lookupD data deviceId = some (.obj fields))
    (h2 : lookupD fields "command" = some (.arr (.obj deviceData :: tail))) :
    switchIsOn model data deviceId =
      .ok (some (if model = 1 then
        isTruthy ((lookupD deviceData "water_status").getD (.num 0 [])) ||
          isTruthy ((lookupD deviceData "water_running").getD (.num 0 []))
        else isTruthy ((lookupD deviceData "ac_status").getD (.num 0 [])))) := by
  by_cases hm : model = 1 <;>
    simp [switchIsOn, h1, h2, pyTry, pySubscriptKey, pySubscriptZero,
      pyDictGet, hm]

/-- Instance of `switch_observed_state`: a valve record with
`water_status = 0` and `water_running = 1` reads as on. -/
theorem switch_observed_state_instance :
    lookupD [("12345", JsonValue.obj [("command", .arr
        [.obj [("water_status", .num 0 []), ("water_running", .num 1 [])]])])]
      "12345" = some (.obj [("command", .arr
        [.obj [("water_status", .num 0 []), ("water_running", .num 1 [])]])]) ∧
    switchIsOn 1 [("12345", JsonValue.obj [("command", .arr
        [.obj [("water_status", .num 0 []), ("water_running", .num 1 [])]])])]
      "12345" = .ok (some (if 1 = 1 then
        isTruthy ((lookupD [("water_status", JsonValue.num 0 []),
            ("water_running", JsonValue.num 1 [])] "water_status").getD
            (.num 0 [])) ||
          isTruthy ((lookupD [("water_status", JsonValue.num 0 []),
            ("water_running", JsonValue.num 1 [])] "water_running").getD
            (.num 0 []))
        else isTruthy ((lookupD [("water_status", JsonValue.num 0 []),
          ("water_running", JsonValue.num 1 [])] "ac_status").getD
          (.num 0 [])))) ∧
    switchIsOn 1 [("12345", JsonValue.obj [("command", .arr
        [.obj [("water_status", .num 0 []), ("water_running", .num 1 [])]])])]
      "12345" = .ok (some true) :=
  ⟨rfl,
    switch_observed_state 1 _ "12345" _
      [("water_status", .num 0 []), ("water_running", .num 1 [])] [] rfl rfl,
    rfl⟩

/-- C10: the claimed iff — available exactly when the last refresh succeeded,
the id is a snapshot key, and the record's `command` field is a list with at
least one element — is false on a reachable record: the polling path parses
and stores `\x7b"command": "ab"\x7d` (no shape validation), and on it the
code checks `len("ab") > 0` and reports available, while the `command` field
is not a list, so the claimed condition says unavailable. -/
theorem availability_counterexample :
    (fetchDeviceData [] wfcDevice (.text "\x7b\"command\": \"ab\"\x7d")
      0).result = .ok (.obj [("command", .str "ab")]) ∧
    (fetchDeviceData [] wfcDevice (.text "\x7b\"command\": \"ab\"\x7d")
      0).cache = [("12345", .obj [("command", .str "ab")])] ∧
    switchAvailable true [("12345", JsonValue.obj [("command", .str "ab")])]
      "12345" = .ok true ∧
    specAvailable true [("12345", JsonValue.obj [("command", .str "ab")])]
      "12345" = false ∧
    commandShapeOkAt [("12345", JsonValue.obj [("command", .str "ab")])]
      "12345" = false :=
  ⟨rfl, rfl, rfl, rfl, rfl⟩

/-- C10 (amended): on records whose `command` field is absent or a list —
the shapes the code's length test and the list reading agree on — every
entity's availability — the switch, sensor and binary-sensor properties are
identical — equals the spec-side predicate: the last refresh succeeded, the
device id is a snapshot key, and the record's `command` field is a list with
at least one element; in particular a present record with a missing or empty
`command` list is unavailable.  Outside that shape the code reports
available whenever `len(record.get("command", []))` is positive, as
`availability_counterexample` shows for a non-empty string-valued
`command`. -/
theorem entity_availability (success : Bool)
    (data : List (String × JsonValue)) (deviceId : String)
    (hshape : commandShapeOkAt data deviceId = true) :
    switchAvailable success data deviceId =
      .ok (specAvailable success data deviceId) ∧
    sensorAvailable success data deviceId =
      switchAvailable success data deviceId ∧
    binarySensorAvailable success data deviceId =
      switchAvailable success data deviceId := by
  refine ⟨?_, rfl, rfl⟩
  cases success
  · simp [switchAvailable, specAvailable]
  · rcases hc : lookupD data deviceId with _ | rec
    · simp [switchAvailable, specAvailable, hc]
    · rcases rec with _ | b | ⟨n, frac⟩ | s | xs | fields
      case null | bool | num | str | arr =>
        simp [commandShapeOkAt, hc, commandShapeOk] at hshape
      case obj =>
        rcases hcv : lookupD fields "command" with _ | v
        · simp [switchAvailable, specAvailable, hc, hcv, pyLen]
        · rcases v with _ | b2 | ⟨n2, frac2⟩ | s2 | xs2 | fields2
          case null | bool | num | str | obj =>
            simp [commandShapeOkAt, hc, commandShapeOk, hcv] at hshape
          case arr =>
            cases xs2 <;>
              simp [switchAvailable, specAvailable, hc, hcv, pyLen]

/-- Instance of `entity_availability`: a snapshot entry present but holding
an empty `command` list is unavailable despite a successful refresh. -/
theorem entity_availability_instance :
    commandShapeOkAt [("12345", JsonValue.obj [("command", .arr [])])]
      "12345" = true ∧
    lookupD [("12345", JsonValue.obj [("command", .arr [])])] "12345" ≠
      none ∧
    specAvailable true [("12345", JsonValue.obj [("command", .arr [])])]
      "12345" = false ∧
    switchAvailable true [("12345", JsonValue.obj [("command", .arr [])])]
      "12345" = .ok (specAvailable true
        [("12345", JsonValue.obj [("command", .arr [])])] "12345") :=
  ⟨rfl, by simp [lookupD], rfl,
    (entity_availability true [("12345", JsonValue.obj [("command", .arr [])])]
      "12345" rfl).1⟩

theorem reconcile_step_below (q : QueueMap) (deviceId : String)
    (target : Bool) (now : Int) (k : Nat)
    (hk : q deviceId = some ⟨target, now, k, none⟩)
    (hlt : k < maxVerificationAttempts) :
    (reconcile q deviceId (!target)) deviceId =
      some ⟨target, now, k + 1, none⟩ := by
  have hne : ¬(!target = target) := by cases target <;> simp
  unfold reconcile
  rw [hk]
  simp [hne, hlt]

theorem reconcile_step_ceiling (q : QueueMap) (deviceId : String)
    (target : Bool) (now : Int)
    (hk : q deviceId = some ⟨target, now, maxVerificationAttempts, none⟩) :
    (reconcile q deviceId (!target)) deviceId =
      some ⟨target, now, maxVerificationAttempts,
        some "reconciliation exhausted"⟩ := by
  have hne : ¬(!target = target) := by cases target <;> simp
  unfold reconcile
  rw [hk]
  simp [hne]

theorem reconcile_fresh_exhausts (q0 : QueueMap) (deviceId : String)
    (target : Bool) (now : Int)
    (h0 : q0 deviceId = some ⟨target, now, 0, none⟩) :
    pendingTerminal (reconcileMismatchN deviceId target
      (maxVerificationAttempts + 1) q0) deviceId = true := by
  have h1 := reconcile_step_below q0 deviceId target now 0 h0 (by decide)
  have h2 := reconcile_step_below _ deviceId target now 1 h1 (by decide)
  have h3 := reconcile_step_below _ deviceId target now 2 h2 (by decide)
  have h4 := reconcile_step_ceiling _ deviceId target now h3
  show pendingTerminal
    (reconcile (reconcile (reconcile (reconcile q0 deviceId (!target))
      deviceId (!target)) deviceId (!target)) deviceId (!target)) deviceId =
    true
  simp [pendingTerminal, h4]

/-- C1 (spec-modelled, over the pending-command machinery of spec section
4.3 whose implementing `command_queue` module the tests import but the
source tree lacks): an accepted `setState` — response trimming to
`"200 OK"` — records a PendingCommand with the desired target state and
attempt count 0, between the POST and the settle delay / out-of-band
refresh; a later reconciliation whose observed state matches the target
clears it, and repeated mismatched reconciliations escalate it to a
terminal failure after the bounded attempt ceiling. -/
theorem pending_command_lifecycle (devices : List Device) (q : QueueMap)
    (deviceId : String) (target : Bool) (raw : String) (now : Int)
    (dev : Device) (idNum : Int)
    (hfind : devices.find? (fun d => d.deviceId == deviceId) = some dev)
    (hid : pyInt deviceId = some idNum)
    (hacc : pyStrip stripCharsList raw = "200 OK") :
    (setStateWithQueue devices q deviceId target (.text raw) now).result =
      .ok ∧
    (setStateWithQueue devices q deviceId target (.text raw) now).queue
      deviceId = some ⟨target, now, 0, none⟩ ∧
    (setStateWithQueue devices q deviceId target (.text raw) now).events =
      [.post (commandPayload target idNum dev.model),
       .recordPending deviceId target, .sleep 1, .requestRefresh] ∧
    reconcile
      ((setStateWithQueue devices q deviceId target (.text raw) now).queue)
      deviceId target deviceId = none ∧
    pendingTerminal (reconcileMismatchN deviceId target
      (maxVerificationAttempts + 1)
      ((setStateWithQueue devices q deviceId target (.text raw) now).queue))
      deviceId = true := by
  have hq : (setStateWithQueue devices q deviceId target (.text raw)
      now).queue = addCommand q deviceId target now := by
    simp [setStateWithQueue, hfind, hid, hacc]
  have h0 : (addCommand q deviceId target now) deviceId =
      some ⟨target, now, 0, none⟩ := by simp [addCommand]
  refine ⟨?_, ?_, ?_, ?_, ?_⟩
  · simp [setStateWithQueue, hfind, hid, hacc]
  · rw [hq]; exact h0
  · simp [setStateWithQueue, hfind, hid, hacc]
  · rw [hq]
    unfold reconcile
    rw [h0]
    simp [clearCommand]
  · rw [hq]
    exact reconcile_fresh_exhausts _ deviceId target now h0

/-- Instance of `pending_command_lifecycle`: device 12345 switched on with an
accepting write endpoint, starting from an empty queue. -/
theorem pending_command_lifecycle_instance :
    [wfcDevice].find? (fun d => d.deviceId == "12345") = some wfcDevice ∧
    pyStrip stripCharsList "200 OK" = "200 OK" ∧
    (setStateWithQueue [wfcDevice] (fun _ => none) "12345" true
      (.text "200 OK") 9).queue "12345" = some ⟨true, 9, 0, none⟩ ∧
    reconcile ((setStateWithQueue [wfcDevice] (fun _ => none) "12345" true
      (.text "200 OK") 9).queue) "12345" true "12345" = none ∧
    pendingTerminal (reconcileMismatchN "12345" true
      (maxVerificationAttempts + 1)
      ((setStateWithQueue [wfcDevice] (fun _ => none) "12345" true
        (.text "200 OK") 9).queue)) "12345" = true :=
  ⟨rfl, rfl,
    (pending_command_lifecycle [wfcDevice] (fun _ => none) "12345" true
      "200 OK" 9 wfcDevice 12345 rfl rfl rfl).2.1,
    (pending_command_lifecycle [wfcDevice] (fun _ => none) "12345" true
      "200 OK" 9 wfcDevice 12345 rfl rfl rfl).2.2.2.1,
    (pending_command_lifecycle [wfcDevice] (fun _ => none) "12345" true
      "200 OK" 9 wfcDevice 12345 rfl rfl rfl).2.2.2.2⟩
